import Mathlib

/-!
Verification of the Engine API client in `lib/ethclient/engineclient.go`.

The development shallowly embeds the client's protocol logic:

* a small explicit heap (`Heap`) models Go's backing storage for slice- and
  pointer-typed payload fields, so that aliasing / fresh-allocation properties
  of `ConvertExecutableDataToRethPayloadV3`, `copyTransactions` and
  `copyWithdrawals` can be stated and proved;
* the status-reconciliation logic of `NewPayloadV3`, `ForkchoiceUpdatedV3`
  and `GetPayloadV3` (the code that runs after `CallContext` returns a decoded
  response and a possibly-nil transport error) is embedded as pure functions
  from the `(response, transportError)` pair to an `EngineCallOutcome`,
  recording the returned value, the returned error, whether the swallowed
  transport error was logged at warn level, and whether the error counter
  was incremented.
-/

/-- A withdrawal record (`types.Withdrawal` from go-ethereum): index,
validator index, address and amount. Only its identity matters here, since
`copyWithdrawals` copies records by reference. -/
structure Withdrawal where
  Index : Nat
  Validator : Nat
  Address : Nat
  Amount : Nat
deriving Repr, DecidableEq, Inhabited

/-- Explicit heap of backing storage: `bytes` holds the backing arrays of Go
`[]byte` values, `u64s` holds `*uint64` cells, `bigs` holds `*big.Int` cells,
and `wrecs` holds `*types.Withdrawal` records. An address is an index into
the respective list; allocation appends. -/
structure Heap where
  bytes : List (List Nat)
  u64s : List Nat
  bigs : List Int
  wrecs : List Withdrawal
deriving Repr, DecidableEq, Inhabited

/-- Dereference a `[]byte` backing address. -/
def readBytes (h : Heap) (a : Nat) : List Nat := h.bytes.getD a []

/-- Mutate the backing array at address `a` (models writing through a Go
slice to its backing array). -/
def writeBytes (h : Heap) (a : Nat) (v : List Nat) : Heap :=
  { h with bytes := h.bytes.set a v }

/-- Allocate a fresh `[]byte` backing array holding `v`; returns the new heap
and the fresh address. -/
def allocBytes (h : Heap) (v : List Nat) : Heap × Nat :=
  ({ h with bytes := h.bytes ++ [v] }, h.bytes.length)

/-- Dereference a `*uint64` cell. -/
def readU64 (h : Heap) (a : Nat) : Nat := h.u64s.getD a 0

/-- Allocate a fresh `*uint64` cell (models `new(uint64)` plus the store). -/
def allocU64 (h : Heap) (v : Nat) : Heap × Nat :=
  ({ h with u64s := h.u64s ++ [v] }, h.u64s.length)

/-- Dereference a `*big.Int` cell. -/
def readBig (h : Heap) (a : Nat) : Int := h.bigs.getD a 0

/-- Allocate a fresh `*big.Int` cell (models `new(big.Int).Set(x)`). -/
def allocBig (h : Heap) (v : Int) : Heap × Nat :=
  ({ h with bigs := h.bigs ++ [v] }, h.bigs.length)

/-- `engine.ExecutableData` (canonical execution payload). Value-typed fields
(hashes, addresses, numbers) are modelled as `Nat`; nilable slice fields as
`Option` of an address list or address (`none` is Go `nil`); pointer fields
as `Option` of a heap address. -/
structure ExecutableData where
  ParentHash : Nat
  FeeRecipient : Nat
  StateRoot : Nat
  ReceiptsRoot : Nat
  LogsBloom : Option Nat
  Random : Nat
  Number : Nat
  GasLimit : Nat
  GasUsed : Nat
  Timestamp : Nat
  ExtraData : Option Nat
  BaseFeePerGas : Option Nat
  BlockHash : Nat
  Transactions : Option (List (Option Nat))
  Withdrawals : Option (List (Option Nat))
  BlobGasUsed : Option Nat
  ExcessBlobGas : Option Nat
  ExecutionWitness : Option Nat
deriving Repr, DecidableEq, Inhabited

/-- `RethPayloadV3`, the fork-specific wire payload, structurally mirroring
`ExecutableData` with the same heap-address representation for slice and
pointer fields. -/
structure RethPayloadV3 where
  ParentHash : Nat
  FeeRecipient : Nat
  StateRoot : Nat
  ReceiptsRoot : Nat
  LogsBloom : Option Nat
  Random : Nat
  Number : Nat
  GasLimit : Nat
  GasUsed : Nat
  Timestamp : Nat
  ExtraData : Option Nat
  BaseFeePerGas : Option Nat
  BlockHash : Nat
  Transactions : Option (List (Option Nat))
  Withdrawals : Option (List (Option Nat))
  BlobGasUsed : Option Nat
  ExcessBlobGas : Option Nat
  ExecutionWitness : Option Nat
deriving Repr, DecidableEq, Inhabited

/-- Inner loop of `copyTransactions`: walks the transaction list; a nil
element stays the zero value `nil` in the copy, a non-nil element has its
raw bytes duplicated into a freshly allocated backing array
(`copied[i] = append([]byte(nil), tx...)`). -/
def copyTxList : Heap → List (Option Nat) → Heap × List (Option Nat)
  | h, [] => (h, [])
  | h, none :: rest =>
    let r := copyTxList h rest
    (r.1, none :: r.2)
  | h, some a :: rest =>
    let alloc := allocBytes h (readBytes h a)
    let r := copyTxList alloc.1 rest
    (r.1, some alloc.2 :: r.2)

/-- `copyTransactions`: a nil source yields the empty non-nil slice
`[][]byte\x7b\x7d`; otherwise a same-length copy with each non-nil
transaction deep-copied into fresh storage. -/
def copyTransactions (h : Heap) (transactions : Option (List (Option Nat))) :
    Heap × Option (List (Option Nat)) :=
  match transactions with
  | none => (h, some [])
  | some txs =>
    let r := copyTxList h txs
    (r.1, some r.2)

/-- `copyWithdrawals`: a nil source yields the empty non-nil slice; otherwise
a freshly made outer slice whose non-nil elements are the same record
pointers (`copied[i] = withdrawal`, shallow copy by reference); nil elements
stay the zero value `nil`. -/
def copyWithdrawals (withdrawals : Option (List (Option Nat))) :
    Option (List (Option Nat)) :=
  match withdrawals with
  | none => some []
  | some ws =>
    some (ws.map (fun w =>
      match w with
      | none => none
      | some a => some a))

/-- The `var baseFee *big.Int; if ed.BaseFeePerGas != nil \x7b baseFee =
new(big.Int).Set(ed.BaseFeePerGas) \x7d` block of the converter:
re-allocate the big-int cell when the source pointer is non-nil. -/
def convertBaseFee (h : Heap) (src : Option Nat) : Heap × Option Nat :=
  match src with
  | none => (h, none)
  | some a =>
    let r := allocBig h (readBig h a)
    (r.1, some r.2)

/-- The `var x *uint64; if src != nil \x7b x = new(uint64); *x = *src \x7d`
blocks used for `BlobGasUsed` and `ExcessBlobGas`: re-allocate the uint64
cell when the source pointer is non-nil. -/
def convertBlobGasField (h : Heap) (src : Option Nat) : Heap × Option Nat :=
  match src with
  | none => (h, none)
  | some a =>
    let r := allocU64 h (readU64 h a)
    (r.1, some r.2)

/-- `ConvertExecutableDataToRethPayloadV3`: field-by-field translation.
The `*big.Int` base fee and the `*uint64` blob-gas fields are re-allocated
when present, transactions are deep-copied via `copyTransactions`,
withdrawals shallow-copied via `copyWithdrawals`, while `LogsBloom`,
`ExtraData` and `ExecutionWitness` are assigned directly. -/
def ConvertExecutableDataToRethPayloadV3 (h : Heap) (ed : ExecutableData) :
    Heap × RethPayloadV3 :=
  let bf := convertBaseFee h ed.BaseFeePerGas
  let bg := convertBlobGasField bf.1 ed.BlobGasUsed
  let eg := convertBlobGasField bg.1 ed.ExcessBlobGas
  let txs := copyTransactions eg.1 ed.Transactions
  (txs.1,
    { ParentHash := ed.ParentHash
      FeeRecipient := ed.FeeRecipient
      StateRoot := ed.StateRoot
      ReceiptsRoot := ed.ReceiptsRoot
      LogsBloom := ed.LogsBloom
      Random := ed.Random
      Number := ed.Number
      GasLimit := ed.GasLimit
      GasUsed := ed.GasUsed
      Timestamp := ed.Timestamp
      ExtraData := ed.ExtraData
      BaseFeePerGas := bf.2
      BlockHash := ed.BlockHash
      Transactions := txs.2
      Withdrawals := copyWithdrawals ed.Withdrawals
      BlobGasUsed := bg.2
      ExcessBlobGas := eg.2
      ExecutionWitness := ed.ExecutionWitness })

/-- `engine.VALID`. -/
def VALID : String := "VALID"

/-- `engine.INVALID`. -/
def INVALID : String := "INVALID"

/-- `engine.SYNCING`. -/
def SYNCING : String := "SYNCING"

/-- `engine.ACCEPTED`. -/
def ACCEPTED : String := "ACCEPTED"

/-- `engine.PayloadStatusV1`: decoded status string plus optional
latest-valid-hash and validation-error text. -/
structure PayloadStatusV1 where
  Status : String
  LatestValidHash : Option Nat
  ValidationError : Option String
deriving Repr, DecidableEq, Inhabited

/-- The Go zero value `engine.PayloadStatusV1\x7b\x7d`. -/
def PayloadStatusV1.zero : PayloadStatusV1 :=
  { Status := "", LatestValidHash := none, ValidationError := none }

/-- `engine.ForkChoiceResponse`: payload status plus optional payload id. -/
structure ForkChoiceResponse where
  PayloadStatus : PayloadStatusV1
  PayloadID : Option Nat
deriving Repr, DecidableEq, Inhabited

/-- The Go zero value `engine.ForkChoiceResponse\x7b\x7d`. -/
def ForkChoiceResponse.zero : ForkChoiceResponse :=
  { PayloadStatus := PayloadStatusV1.zero, PayloadID := none }

/-- `engine.ExecutionPayloadEnvelope`: the decoded result of a get-payload
call (payload, block value, blobs bundle, override flag). -/
structure ExecutionPayloadEnvelope where
  ExecutionPayload : Option ExecutableData
  BlockValue : Option Int
  BlobsBundle : Option Nat
  Override : Bool
deriving Repr, DecidableEq, Inhabited

/-- Errors produced by the engine client, mirroring the `lib/errors`
constructors used in the source: `wrap underlying msg attrs` is
`errors.Wrap(err, msg, attrs...)` and carries the underlying transport
error; `new msg attrs` is `errors.New(msg, attrs...)`. -/
inductive EngineError where
  | wrap (underlying : String) (msg : String) (attrs : List (String × String))
  | new (msg : String) (attrs : List (String × String))
deriving Repr, DecidableEq

/-- Observable outcome of one engine call: the value and error returned to
the caller, whether a swallowed transport error was logged at warn level,
and whether the endpoint error counter was incremented. -/
structure EngineCallOutcome (α : Type) where
  result : α
  err : Option EngineError
  warnLogged : Bool
  errorCounted : Bool
deriving Repr, DecidableEq

/-- Go map-literal lookup with the zero-value default `false` for a missing
key, as in `map[string]bool\x7b...\x7d[status]`. -/
def mapLookupBool : List (String × Bool) → String → Bool
  | [], _ => false
  | (k, v) :: rest, key => if k == key then v else mapLookupBool rest key

/-- The `isStatusOk` closure of `NewPayloadV3`: the map literal marks VALID,
INVALID, SYNCING and ACCEPTED as valid. -/
def newPayloadIsStatusOk (status : PayloadStatusV1) : Bool :=
  mapLookupBool
    [(VALID, true), (INVALID, true), (SYNCING, true), (ACCEPTED, true)]
    status.Status

/-- The `isStatusOk` closure of `ForkchoiceUpdatedV3`: the map literal marks
VALID, INVALID and SYNCING as valid and explicitly maps ACCEPTED to `false`
(unexpected in ForkchoiceUpdated). -/
def forkchoiceIsStatusOk (resp : ForkChoiceResponse) : Bool :=
  mapLookupBool
    [(VALID, true), (INVALID, true), (SYNCING, true), (ACCEPTED, false)]
    resp.PayloadStatus.Status

/-- Status reconciliation of `NewPayloadV3`, as a function of the decoded
response and the transport error returned by `CallContext`. In-domain
status: success, warn-log any transport error. Out-of-domain with non-nil
error: wrapped transport error. Out-of-domain with nil error: distinct
protocol-violation error carrying the status attribute. -/
def NewPayloadV3Outcome (resp : PayloadStatusV1) (transportErr : Option String) :
    EngineCallOutcome PayloadStatusV1 :=
  if newPayloadIsStatusOk resp then
    { result := resp, err := none,
      warnLogged := transportErr.isSome, errorCounted := false }
  else
    match transportErr with
    | some e =>
      { result := PayloadStatusV1.zero,
        err := some (EngineError.wrap e "rpc new payload" []),
        warnLogged := false, errorCounted := true }
    | none =>
      { result := PayloadStatusV1.zero,
        err := some (EngineError.new "nil error and unknown status"
          [("status", resp.Status)]),
        warnLogged := false, errorCounted := true }

/-- Status reconciliation of `ForkchoiceUpdatedV3`, with the same shape as
`NewPayloadV3Outcome` but over the forkchoice valid-status domain. -/
def ForkchoiceUpdatedV3Outcome (resp : ForkChoiceResponse)
    (transportErr : Option String) : EngineCallOutcome ForkChoiceResponse :=
  if forkchoiceIsStatusOk resp then
    { result := resp, err := none,
      warnLogged := transportErr.isSome, errorCounted := false }
  else
    match transportErr with
    | some e =>
      { result := ForkChoiceResponse.zero,
        err := some (EngineError.wrap e "rpc forkchoice updated v3" []),
        warnLogged := false, errorCounted := true }
    | none =>
      { result := ForkChoiceResponse.zero,
        err := some (EngineError.new "nil error and unknown status"
          [("status", resp.PayloadStatus.Status)]),
        warnLogged := false, errorCounted := true }

/-- Outcome of `GetPayloadV3`: any transport error is a hard failure
(wrapped), otherwise the decoded envelope is returned. There is no status
domain for this capability. -/
def GetPayloadV3Outcome (resp : ExecutionPayloadEnvelope)
    (transportErr : Option String) :
    EngineCallOutcome (Option ExecutionPayloadEnvelope) :=
  match transportErr with
  | some e =>
    { result := none,
      err := some (EngineError.wrap e "rpc get payload v3" []),
      warnLogged := false, errorCounted := true }
  | none =>
    { result := some resp, err := none,
      warnLogged := false, errorCounted := false }

/-! ### Status-domain characterizations -/

/-- The `NewPayloadV3` status check accepts exactly the four statuses of its
map literal. -/
theorem newPayloadIsStatusOk_iff (s : PayloadStatusV1) :
    newPayloadIsStatusOk s = true ↔
      s.Status ∈ [VALID, INVALID, SYNCING, ACCEPTED] := by
  simp only [newPayloadIsStatusOk, mapLookupBool, beq_iff_eq, List.mem_cons,
    List.not_mem_nil, or_false]
  split_ifs with h1 h2 h3 h4 <;> simp_all [eq_comm]

/-- The `ForkchoiceUpdatedV3` status check accepts exactly VALID, INVALID and
SYNCING; the explicit `ACCEPTED ↦ false` entry and the missing-key default
coincide. -/
theorem forkchoiceIsStatusOk_iff (r : ForkChoiceResponse) :
    forkchoiceIsStatusOk r = true ↔
      r.PayloadStatus.Status ∈ [VALID, INVALID, SYNCING] := by
  simp only [forkchoiceIsStatusOk, mapLookupBool, beq_iff_eq, List.mem_cons,
    List.not_mem_nil, or_false]
  split_ifs with h1 h2 h3 h4 <;> simp_all [eq_comm, VALID, INVALID, SYNCING, ACCEPTED]

/-! ### Claim theorems: status reconciliation -/

/-- C1: for every payload status in the capability's valid status domain
({VALID, INVALID, SYNCING, ACCEPTED} for NewPayloadV3; {VALID, INVALID,
SYNCING} for ForkchoiceUpdatedV3}) and every transport error (nil or not),
the call succeeds with the decoded response; a non-nil transport error is
never propagated, only logged at warn level. -/
theorem inDomain_success (s : PayloadStatusV1) (r : ForkChoiceResponse)
    (te tf : Option String)
    (hs : s.Status ∈ [VALID, INVALID, SYNCING, ACCEPTED])
    (hr : r.PayloadStatus.Status ∈ [VALID, INVALID, SYNCING]) :
    NewPayloadV3Outcome s te =
      { result := s, err := none,
        warnLogged := te.isSome, errorCounted := false } ∧
    ForkchoiceUpdatedV3Outcome r tf =
      { result := r, err := none,
        warnLogged := tf.isSome, errorCounted := false } := by
  have h1 : newPayloadIsStatusOk s = true := (newPayloadIsStatusOk_iff s).mpr hs
  have h2 : forkchoiceIsStatusOk r = true := (forkchoiceIsStatusOk_iff r).mpr hr
  constructor <;> simp [NewPayloadV3Outcome, ForkchoiceUpdatedV3Outcome, h1, h2]

/-- Witness for C1, Scenario A of the spec: a SYNCING new-payload response
with a non-nil transport error succeeds with status SYNCING, logging the
error; a VALID forkchoice response with a transport error likewise. -/
theorem inDomain_success_witness :
    ((⟨"SYNCING", none, none⟩ : PayloadStatusV1).Status
        ∈ [VALID, INVALID, SYNCING, ACCEPTED]) ∧
    ((⟨⟨"VALID", none, none⟩, none⟩ : ForkChoiceResponse).PayloadStatus.Status
        ∈ [VALID, INVALID, SYNCING]) ∧
    (NewPayloadV3Outcome ⟨"SYNCING", none, none⟩ (some "conn reset") =
      { result := ⟨"SYNCING", none, none⟩, err := none,
        warnLogged := true, errorCounted := false } ∧
    ForkchoiceUpdatedV3Outcome ⟨⟨"VALID", none, none⟩, none⟩ (some "conn reset") =
      { result := ⟨⟨"VALID", none, none⟩, none⟩, err := none,
        warnLogged := true, errorCounted := false }) :=
  ⟨by decide, by decide,
    inDomain_success _ _ (some "conn reset") (some "conn reset")
      (by decide) (by decide)⟩

/-- C3: for every status outside the valid domain with a nil transport
error, the call fails with the distinct protocol-violation error
`nil error and unknown status` (carrying the status attribute), never with
success and never with a wrapped transport error. -/
theorem nilError_unexpectedStatus (s : PayloadStatusV1) (r : ForkChoiceResponse)
    (hs : s.Status ∉ [VALID, INVALID, SYNCING, ACCEPTED])
    (hr : r.PayloadStatus.Status ∉ [VALID, INVALID, SYNCING]) :
    NewPayloadV3Outcome s none =
      { result := PayloadStatusV1.zero,
        err := some (EngineError.new "nil error and unknown status"
          [("status", s.Status)]),
        warnLogged := false, errorCounted := true } ∧
    (∀ u m a, (NewPayloadV3Outcome s none).err ≠
      some (EngineError.wrap u m a)) ∧
    ForkchoiceUpdatedV3Outcome r none =
      { result := ForkChoiceResponse.zero,
        err := some (EngineError.new "nil error and unknown status"
          [("status", r.PayloadStatus.Status)]),
        warnLogged := false, errorCounted := true } ∧
    (∀ u m a, (ForkchoiceUpdatedV3Outcome r none).err ≠
      some (EngineError.wrap u m a)) := by
  have h1 : ¬newPayloadIsStatusOk s = true :=
    fun h => hs ((newPayloadIsStatusOk_iff s).mp h)
  have h2 : ¬forkchoiceIsStatusOk r = true :=
    fun h => hr ((forkchoiceIsStatusOk_iff r).mp h)
  refine ⟨?_, ?_, ?_, ?_⟩ <;>
    simp [NewPayloadV3Outcome, ForkchoiceUpdatedV3Outcome, h1, h2]

/-- Witness for C3, Scenario B of the spec: a forkchoice response with
status ACCEPTED and nil transport error is a protocol-violation failure,
as is a new-payload response with an unknown status. -/
theorem nilError_unexpectedStatus_witness :
    ((⟨"UNKNOWN", none, none⟩ : PayloadStatusV1).Status
        ∉ [VALID, INVALID, SYNCING, ACCEPTED]) ∧
    ((⟨⟨"ACCEPTED", none, none⟩, none⟩ :
        ForkChoiceResponse).PayloadStatus.Status ∉ [VALID, INVALID, SYNCING]) ∧
    (NewPayloadV3Outcome ⟨"UNKNOWN", none, none⟩ none).err =
      some (EngineError.new "nil error and unknown status"
        [("status", "UNKNOWN")]) ∧
    (ForkchoiceUpdatedV3Outcome ⟨⟨"ACCEPTED", none, none⟩, none⟩ none).err =
      some (EngineError.new "nil error and unknown status"
        [("status", "ACCEPTED")]) := by
  refine ⟨by decide, by decide, ?_, ?_⟩
  · exact congrArg EngineCallOutcome.err
      (nilError_unexpectedStatus ⟨"UNKNOWN", none, none⟩
        ⟨⟨"ACCEPTED", none, none⟩, none⟩ (by decide) (by decide)).1
  · exact congrArg EngineCallOutcome.err
      (nilError_unexpectedStatus ⟨"UNKNOWN", none, none⟩
        ⟨⟨"ACCEPTED", none, none⟩, none⟩ (by decide) (by decide)).2.2.1

/-- Counterexample to C4 as stated: with an out-of-domain status BOGUS and a
non-nil transport error, the wrapped error carries an empty attribute list —
it is not annotated with the out-of-domain status. -/
theorem wrap_not_status_annotated :
    ¬∃ m attrs,
      (NewPayloadV3Outcome ⟨"BOGUS", none, none⟩ (some "connection refused")).err
          = some (EngineError.wrap "connection refused" m attrs) ∧
        ("status", "BOGUS") ∈ attrs := by
  rintro ⟨m, attrs, hw, hmem⟩
  have h : (NewPayloadV3Outcome ⟨"BOGUS", none, none⟩
      (some "connection refused")).err
      = some (EngineError.wrap "connection refused" "rpc new payload" []) := by
    decide
  rw [h] at hw
  simp only [Option.some.injEq, EngineError.wrap.injEq] at hw
  rw [← hw.2.2] at hmem
  simp at hmem

/-- C4 (amended): for every status outside the valid domain with a non-nil
transport error, NewPayloadV3 and ForkchoiceUpdatedV3 fail with a wrapped
error referencing the underlying transport error (with an empty attribute
list: the status is not attached to the error). -/
theorem outOfDomain_transportError_wrapped (s : PayloadStatusV1)
    (r : ForkChoiceResponse) (e f : String)
    (hs : s.Status ∉ [VALID, INVALID, SYNCING, ACCEPTED])
    (hr : r.PayloadStatus.Status ∉ [VALID, INVALID, SYNCING]) :
    NewPayloadV3Outcome s (some e) =
      { result := PayloadStatusV1.zero,
        err := some (EngineError.wrap e "rpc new payload" []),
        warnLogged := false, errorCounted := true } ∧
    ForkchoiceUpdatedV3Outcome r (some f) =
      { result := ForkChoiceResponse.zero,
        err := some (EngineError.wrap f "rpc forkchoice updated v3" []),
        warnLogged := false, errorCounted := true } := by
  have h1 : ¬newPayloadIsStatusOk s = true :=
    fun h => hs ((newPayloadIsStatusOk_iff s).mp h)
  have h2 : ¬forkchoiceIsStatusOk r = true :=
    fun h => hr ((forkchoiceIsStatusOk_iff r).mp h)
  constructor <;> simp [NewPayloadV3Outcome, ForkchoiceUpdatedV3Outcome, h1, h2]

/-- Witness for the amended C4: a BOGUS status with a non-nil transport
error yields the wrapped transport error on both calls. -/
theorem outOfDomain_transportError_wrapped_witness :
    ((⟨"BOGUS", none, none⟩ : PayloadStatusV1).Status
        ∉ [VALID, INVALID, SYNCING, ACCEPTED]) ∧
    ((⟨⟨"BOGUS", none, none⟩, none⟩ :
        ForkChoiceResponse).PayloadStatus.Status ∉ [VALID, INVALID, SYNCING]) ∧
    (NewPayloadV3Outcome ⟨"BOGUS", none, none⟩ (some "timeout") =
      { result := PayloadStatusV1.zero,
        err := some (EngineError.wrap "timeout" "rpc new payload" []),
        warnLogged := false, errorCounted := true } ∧
    ForkchoiceUpdatedV3Outcome ⟨⟨"BOGUS", none, none⟩, none⟩ (some "timeout") =
      { result := ForkChoiceResponse.zero,
        err := some (EngineError.wrap "timeout" "rpc forkchoice updated v3" []),
        warnLogged := false, errorCounted := true }) :=
  ⟨by decide, by decide,
    outOfDomain_transportError_wrapped _ _ "timeout" "timeout"
      (by decide) (by decide)⟩

/-- C5: GetPayloadV3 has no ambiguous-success case: the call succeeds with
the decoded envelope exactly when the transport error is nil, and any
non-nil transport error yields a wrapped failure with no result, regardless
of the decoded content. -/
theorem getPayload_success_iff_nilError (resp : ExecutionPayloadEnvelope)
    (te : Option String) :
    (((GetPayloadV3Outcome resp te).err = none ∧
        (GetPayloadV3Outcome resp te).result = some resp) ↔ te = none) ∧
    (∀ e, GetPayloadV3Outcome resp (some e) =
      { result := none,
        err := some (EngineError.wrap e "rpc get payload v3" []),
        warnLogged := false, errorCounted := true }) := by
  cases te <;> simp [GetPayloadV3Outcome]

/-- Witness for C5 at a concrete envelope: success with nil error, wrapped
failure with a non-nil one (Scenario D of the spec). -/
theorem getPayload_success_iff_nilError_witness :
    (((GetPayloadV3Outcome ⟨none, none, none, false⟩ none).err = none ∧
        (GetPayloadV3Outcome ⟨none, none, none, false⟩ none).result =
          some ⟨none, none, none, false⟩) ↔ (none : Option String) = none) ∧
    (∀ e, GetPayloadV3Outcome ⟨none, none, none, false⟩ (some e) =
      { result := none,
        err := some (EngineError.wrap e "rpc get payload v3" []),
        warnLogged := false, errorCounted := true }) :=
  getPayload_success_iff_nilError ⟨none, none, none, false⟩ none

/-- C9: whenever NewPayloadV3 or ForkchoiceUpdatedV3 returns an error, the
accompanying result is the zero value of its response type — a caller
observing an error never observes decoded response content. -/
theorem failure_returns_zero (s : PayloadStatusV1) (r : ForkChoiceResponse)
    (te tf : Option String) :
    ((NewPayloadV3Outcome s te).err.isSome = true →
      (NewPayloadV3Outcome s te).result = PayloadStatusV1.zero) ∧
    ((ForkchoiceUpdatedV3Outcome r tf).err.isSome = true →
      (ForkchoiceUpdatedV3Outcome r tf).result = ForkChoiceResponse.zero) := by
  constructor
  · by_cases h : newPayloadIsStatusOk s <;> cases te <;>
      simp [NewPayloadV3Outcome, h]
  · by_cases h : forkchoiceIsStatusOk r <;> cases tf <;>
      simp [ForkchoiceUpdatedV3Outcome, h]

/-- Witness for C9: a nil-error protocol violation on the new-payload path
and a transport-error failure on the forkchoice path both return zero
values. -/
theorem failure_returns_zero_witness :
    (NewPayloadV3Outcome ⟨"OOPS", none, none⟩ none).err.isSome = true ∧
    (NewPayloadV3Outcome ⟨"OOPS", none, none⟩ none).result =
      PayloadStatusV1.zero ∧
    (ForkchoiceUpdatedV3Outcome ⟨⟨"ACCEPTED", none, none⟩, none⟩
        (some "eof")).err.isSome = true ∧
    (ForkchoiceUpdatedV3Outcome ⟨⟨"ACCEPTED", none, none⟩, none⟩
        (some "eof")).result = ForkChoiceResponse.zero :=
  ⟨by decide,
    (failure_returns_zero ⟨"OOPS", none, none⟩
      ⟨⟨"ACCEPTED", none, none⟩, none⟩ none (some "eof")).1 (by decide),
    by decide,
    (failure_returns_zero ⟨"OOPS", none, none⟩
      ⟨⟨"ACCEPTED", none, none⟩, none⟩ none (some "eof")).2 (by decide)⟩

/-! ### Heap lemmas -/

/-- Writing one byte array leaves every other address unchanged. -/
theorem readBytes_writeBytes_ne (h : Heap) {a b : Nat} (v : List Nat)
    (hab : a ≠ b) : readBytes (writeBytes h a v) b = readBytes h b := by
  simp [readBytes, writeBytes, List.getD_eq_getElem?_getD,
    List.getElem?_set_ne hab]

/-- Allocation preserves reads at existing addresses. -/
theorem readBytes_allocBytes_lt (h : Heap) (v : List Nat) {a : Nat}
    (ha : a < h.bytes.length) :
    readBytes (allocBytes h v).1 a = readBytes h a := by
  simp [readBytes, allocBytes, List.getD_eq_getElem?_getD,
    List.getElem?_append, ha]

/-- A freshly allocated byte array reads back its contents. -/
theorem readBytes_allocBytes_self (h : Heap) (v : List Nat) :
    readBytes (allocBytes h v).1 (allocBytes h v).2 = v := by
  simp [readBytes, allocBytes, List.getD_eq_getElem?_getD,
    List.getElem?_append]

/-- `copyTxList` preserves the length of the transaction list. -/
theorem copyTxList_length (h : Heap) (l : List (Option Nat)) :
    (copyTxList h l).2.length = l.length := by
  induction l generalizing h with
  | nil => simp [copyTxList]
  | cons x rest ih =>
    cases x with
    | none => simpa [copyTxList] using ih h
    | some a => simpa [copyTxList] using ih (allocBytes h (readBytes h a)).1

/-- `copyTxList` only grows the byte store. -/
theorem copyTxList_bytes_le (h : Heap) (l : List (Option Nat)) :
    h.bytes.length ≤ (copyTxList h l).1.bytes.length := by
  induction l generalizing h with
  | nil => simp [copyTxList]
  | cons x rest ih =>
    cases x with
    | none => simpa [copyTxList] using ih h
    | some a =>
      have h1 := ih (allocBytes h (readBytes h a)).1
      simp only [copyTxList, allocBytes, List.length_append,
        List.length_singleton] at h1 ⊢
      omega

/-- `copyTxList` preserves reads at pre-existing byte addresses. -/
theorem copyTxList_readBytes_lt (h : Heap) (l : List (Option Nat)) {a : Nat}
    (ha : a < h.bytes.length) :
    readBytes (copyTxList h l).1 a = readBytes h a := by
  induction l generalizing h with
  | nil => simp [copyTxList]
  | cons x rest ih =>
    cases x with
    | none => simpa [copyTxList] using ih h ha
    | some b =>
      have hlt : a < (allocBytes h (readBytes h b)).1.bytes.length := by
        simp only [allocBytes, List.length_append, List.length_singleton]
        omega
      calc (copyTxList h (some b :: rest)).1.bytes.getD a []
          = readBytes (copyTxList (allocBytes h (readBytes h b)).1 rest).1 a := by
            simp [copyTxList, readBytes]
        _ = readBytes (allocBytes h (readBytes h b)).1 a := ih _ hlt
        _ = readBytes h a := readBytes_allocBytes_lt h _ ha

/-- `copyTxList` does not touch the uint64 store. -/
theorem copyTxList_u64s (h : Heap) (l : List (Option Nat)) :
    (copyTxList h l).1.u64s = h.u64s := by
  induction l generalizing h with
  | nil => simp [copyTxList]
  | cons x rest ih =>
    cases x with
    | none => simpa [copyTxList] using ih h
    | some a => simpa [copyTxList, allocBytes]
        using ih (allocBytes h (readBytes h a)).1

/-- `copyTxList` does not touch the big-int store. -/
theorem copyTxList_bigs (h : Heap) (l : List (Option Nat)) :
    (copyTxList h l).1.bigs = h.bigs := by
  induction l generalizing h with
  | nil => simp [copyTxList]
  | cons x rest ih =>
    cases x with
    | none => simpa [copyTxList] using ih h
    | some a => simpa [copyTxList, allocBytes]
        using ih (allocBytes h (readBytes h a)).1

/-- Per-index specification of `copyTxList` for a non-nil transaction whose
backing address is valid: the copy holds a fresh address with the same
contents. -/
theorem copyTxList_elem (h : Heap) (l : List (Option Nat)) (i a : Nat)
    (hi : l[i]? = some (some a)) (ha : a < h.bytes.length) :
    ∃ a2, (copyTxList h l).2[i]? = some (some a2) ∧
      h.bytes.length ≤ a2 ∧ a2 < (copyTxList h l).1.bytes.length ∧
      readBytes (copyTxList h l).1 a2 = readBytes h a := by
  induction l generalizing h i with
  | nil => simp at hi
  | cons x rest ih =>
    cases x with
    | none =>
      cases i with
      | zero => simp at hi
      | succ j =>
        obtain ⟨a2, h1, h2, h3, h4⟩ := ih h j (by simpa using hi) ha
        exact ⟨a2, by simpa [copyTxList] using h1,
          by simpa [copyTxList] using h2,
          by simpa [copyTxList] using h3,
          by simpa [copyTxList] using h4⟩
    | some b =>
      cases i with
      | zero =>
        have hb : b = a := by simpa using hi
        subst hb
        refine ⟨(allocBytes h (readBytes h b)).2, by simp [copyTxList], ?_, ?_, ?_⟩
        · simp [allocBytes, copyTxList]
        · have h1 := copyTxList_bytes_le (allocBytes h (readBytes h b)).1 rest
          simp only [copyTxList, allocBytes, List.length_append,
            List.length_singleton] at h1 ⊢
          omega
        · have h2 : (allocBytes h (readBytes h b)).2 <
              (allocBytes h (readBytes h b)).1.bytes.length := by
            simp [allocBytes]
          calc readBytes (copyTxList h (some b :: rest)).1
                (allocBytes h (readBytes h b)).2
              = readBytes (copyTxList (allocBytes h (readBytes h b)).1 rest).1
                  (allocBytes h (readBytes h b)).2 := by
                simp [copyTxList]
            _ = readBytes (allocBytes h (readBytes h b)).1
                  (allocBytes h (readBytes h b)).2 :=
                copyTxList_readBytes_lt _ rest h2
            _ = readBytes h b := readBytes_allocBytes_self h _
      | succ j =>
        have ha2 : a < (allocBytes h (readBytes h b)).1.bytes.length := by
          simp only [allocBytes, List.length_append, List.length_singleton]
          omega
        obtain ⟨a2, h1, h2, h3, h4⟩ :=
          ih (allocBytes h (readBytes h b)).1 j (by simpa using hi) ha2
        refine ⟨a2, by simpa [copyTxList] using h1, ?_,
          by simpa [copyTxList] using h3, ?_⟩
        · have : h.bytes.length ≤ (allocBytes h (readBytes h b)).1.bytes.length := by
            simp [allocBytes]
          omega
        · rw [show (copyTxList h (some b :: rest)).1
              = (copyTxList (allocBytes h (readBytes h b)).1 rest).1 by
              simp [copyTxList]]
          rw [h4, readBytes_allocBytes_lt h _ ha]

/-- `copyTxList` maps nil elements to nil and non-nil elements to non-nil,
index by index. -/
theorem copyTxList_nil_elem (h : Heap) (l : List (Option Nat)) (i : Nat) :
    (copyTxList h l).2[i]? = some none ↔ l[i]? = some none := by
  induction l generalizing h i with
  | nil => simp [copyTxList]
  | cons x rest ih =>
    cases x with
    | none =>
      cases i with
      | zero => simp [copyTxList]
      | succ j => simpa [copyTxList] using ih h j
    | some b =>
      cases i with
      | zero => simp [copyTxList]
      | succ j => simpa [copyTxList] using ih (allocBytes h (readBytes h b)).1 j

/-! ### Claim theorems: copy semantics -/

/-- C6: `copyTransactions` returns a non-nil slice of the same length whose
non-nil elements hold the same bytes in freshly allocated storage, so
writing through the source address leaves the copy unchanged and vice
versa; a nil source yields the empty non-nil slice. -/
theorem copyTransactions_correct (h : Heap) (t : List (Option Nat)) (i a : Nat)
    (hi : t[i]? = some (some a)) (ha : a < h.bytes.length) :
    (copyTransactions h none).2 = some [] ∧
    (∃ l, (copyTransactions h (some t)).2 = some l ∧ l.length = t.length ∧
      ∃ a2, l[i]? = some (some a2) ∧ h.bytes.length ≤ a2 ∧
        readBytes (copyTransactions h (some t)).1 a2 = readBytes h a ∧
        (∀ v, readBytes (writeBytes (copyTransactions h (some t)).1 a v) a2 =
          readBytes (copyTransactions h (some t)).1 a2) ∧
        (∀ v, readBytes (writeBytes (copyTransactions h (some t)).1 a2 v) a =
          readBytes (copyTransactions h (some t)).1 a)) := by
  obtain ⟨a2, h1, h2, h3, h4⟩ := copyTxList_elem h t i a hi ha
  have hne : a ≠ a2 := by omega
  exact ⟨rfl, (copyTxList h t).2, rfl, copyTxList_length h t, a2, h1, h2, h4,
    fun v => readBytes_writeBytes_ne _ v hne,
    fun v => readBytes_writeBytes_ne _ v (Ne.symm hne)⟩

/-- Heap for the C6 witness: two byte arrays `[0xAA]` and `[0xBB]`
(Scenario C of the spec). -/
def txHeap : Heap := ⟨[[170], [187]], [], [], []⟩

/-- Source transactions for the C6 witness: two non-nil transactions
pointing at the two arrays of `txHeap`. -/
def txSrc : List (Option Nat) := [some 0, some 1]

/-- Witness for C6 at Scenario C: the two-transaction payload is copied
into fresh storage. -/
theorem copyTransactions_correct_witness :
    txSrc[0]? = some (some 0) ∧ 0 < txHeap.bytes.length ∧
    ((copyTransactions txHeap none).2 = some [] ∧
    (∃ l, (copyTransactions txHeap (some txSrc)).2 = some l ∧
      l.length = txSrc.length ∧
      ∃ a2, l[0]? = some (some a2) ∧ txHeap.bytes.length ≤ a2 ∧
        readBytes (copyTransactions txHeap (some txSrc)).1 a2 =
          readBytes txHeap 0 ∧
        (∀ v, readBytes
            (writeBytes (copyTransactions txHeap (some txSrc)).1 0 v) a2 =
          readBytes (copyTransactions txHeap (some txSrc)).1 a2) ∧
        (∀ v, readBytes
            (writeBytes (copyTransactions txHeap (some txSrc)).1 a2 v) 0 =
          readBytes (copyTransactions txHeap (some txSrc)).1 0))) :=
  ⟨by decide, by decide,
    copyTransactions_correct txHeap txSrc 0 0 (by decide) (by decide)⟩

/-- C10: `copyTransactions` and `copyWithdrawals` preserve nil elements
index by index — a nil element stays nil and a non-nil element never
becomes nil. -/
theorem copy_preserves_nil_elements (h : Heap) (t w : List (Option Nat))
    (i : Nat) :
    (((copyTransactions h (some t)).2.getD [])[i]? = some none ↔
      t[i]? = some none) ∧
    (((copyWithdrawals (some w)).getD [])[i]? = some none ↔
      w[i]? = some none) := by
  constructor
  · simpa [copyTransactions] using copyTxList_nil_elem h t i
  · simp only [copyWithdrawals, Option.getD_some, List.getElem?_map]
    cases hx : w[i]? with
    | none => simp
    | some x => cases x <;> simp

/-- C8: `copyWithdrawals` returns a slice of the same length whose elements
are the same record pointers as the source's (copy by reference, not deep
copy); a nil source yields the empty non-nil slice. -/
theorem copyWithdrawals_by_reference (ws : List (Option Nat)) :
    copyWithdrawals none = some [] ∧
    ∃ l : List (Option Nat), copyWithdrawals (some ws) = some l ∧
      l.length = ws.length ∧ ∀ i : Nat, l[i]? = ws[i]? := by
  refine ⟨rfl, ws.map (fun w : Option Nat =>
      match w with | none => (none : Option Nat) | some a => some a),
    rfl, by simp, ?_⟩
  intro i
  simp only [List.getElem?_map]
  cases hx : ws[i]? with
  | none => rfl
  | some x => cases x <;> rfl

/-! ### Lemmas about the converter's heap stages -/

/-- `convertBaseFee` leaves the uint64 store untouched. -/
theorem convertBaseFee_u64s (h : Heap) (s : Option Nat) :
    (convertBaseFee h s).1.u64s = h.u64s := by
  cases s <;> rfl

/-- `convertBlobGasField` leaves the big-int store untouched. -/
theorem readBig_convertBlobGasField (h : Heap) (s : Option Nat) (a : Nat) :
    readBig (convertBlobGasField h s).1 a = readBig h a := by
  cases s <;> rfl

/-- `copyTransactions` leaves the big-int store untouched. -/
theorem readBig_copyTransactions (h : Heap) (t : Option (List (Option Nat)))
    (a : Nat) : readBig (copyTransactions h t).1 a = readBig h a := by
  cases t with
  | none => rfl
  | some l => simp [copyTransactions, readBig, copyTxList_bigs]

/-- `copyTransactions` leaves the uint64 store untouched. -/
theorem readU64_copyTransactions (h : Heap) (t : Option (List (Option Nat)))
    (a : Nat) : readU64 (copyTransactions h t).1 a = readU64 h a := by
  cases t with
  | none => rfl
  | some l => simp [copyTransactions, readU64, copyTxList_u64s]

/-- `convertBlobGasField` preserves reads at existing uint64 addresses. -/
theorem readU64_convertBlobGasField_lt (h : Heap) (s : Option Nat) {a : Nat}
    (ha : a < h.u64s.length) :
    readU64 (convertBlobGasField h s).1 a = readU64 h a := by
  cases s with
  | none => rfl
  | some b =>
    simp [convertBlobGasField, allocU64, readU64,
      List.getD_eq_getElem?_getD, List.getElem?_append, ha]

/-- `convertBlobGasField` only grows the uint64 store. -/
theorem convertBlobGasField_u64s_le (h : Heap) (s : Option Nat) :
    h.u64s.length ≤ (convertBlobGasField h s).1.u64s.length := by
  cases s <;> simp [convertBlobGasField, allocU64]

/-- `convertBaseFee` leaves the uint64 store untouched, hence uint64 reads
are unchanged. -/
theorem readU64_convertBaseFee (h : Heap) (s : Option Nat) (a : Nat) :
    readU64 (convertBaseFee h s).1 a = readU64 h a := by
  cases s <;> rfl

/-- C7: each optional pointer field (BaseFeePerGas, BlobGasUsed,
ExcessBlobGas) of the wire payload is absent exactly when absent in the
source, and when present it is a fresh cell holding the source value. -/
theorem convert_optional_pointer_fields (h : Heap) (ed : ExecutableData)
    (heg : ∀ b, ed.ExcessBlobGas = some b → b < h.u64s.length) :
    ((ConvertExecutableDataToRethPayloadV3 h ed).2.BaseFeePerGas = none ↔
      ed.BaseFeePerGas = none) ∧
    ((ConvertExecutableDataToRethPayloadV3 h ed).2.BlobGasUsed = none ↔
      ed.BlobGasUsed = none) ∧
    ((ConvertExecutableDataToRethPayloadV3 h ed).2.ExcessBlobGas = none ↔
      ed.ExcessBlobGas = none) ∧
    (∀ a, ed.BaseFeePerGas = some a → ∃ a2,
      (ConvertExecutableDataToRethPayloadV3 h ed).2.BaseFeePerGas = some a2 ∧
      h.bigs.length ≤ a2 ∧
      readBig (ConvertExecutableDataToRethPayloadV3 h ed).1 a2 = readBig h a) ∧
    (∀ a, ed.BlobGasUsed = some a → ∃ a2,
      (ConvertExecutableDataToRethPayloadV3 h ed).2.BlobGasUsed = some a2 ∧
      h.u64s.length ≤ a2 ∧
      readU64 (ConvertExecutableDataToRethPayloadV3 h ed).1 a2 = readU64 h a) ∧
    (∀ a, ed.ExcessBlobGas = some a → ∃ a2,
      (ConvertExecutableDataToRethPayloadV3 h ed).2.ExcessBlobGas = some a2 ∧
      h.u64s.length ≤ a2 ∧
      readU64 (ConvertExecutableDataToRethPayloadV3 h ed).1 a2 = readU64 h a) := by
  rcases hb : ed.BaseFeePerGas with _ | b <;>
    rcases hg : ed.BlobGasUsed with _ | g <;>
      rcases he : ed.ExcessBlobGas with _ | e <;>
        simp only [ConvertExecutableDataToRethPayloadV3, convertBaseFee,
          convertBlobGasField, hb, hg, he, allocBig, allocU64,
          readBig_copyTransactions, readU64_copyTransactions]
  all_goals
    first
      | (have ha := heg _ he
         simp [readBig, readU64, List.getD_eq_getElem?_getD,
           List.getElem?_concat_length, List.getElem?_append,
           List.length_append, Nat.lt_succ_self, ha])
      | simp [readBig, readU64, List.getD_eq_getElem?_getD,
          List.getElem?_concat_length, List.getElem?_append,
          List.length_append, Nat.lt_succ_self]

/-- Heap for the C7 witness: one uint64 cell `5` and one big-int cell `7`. -/
def cvHeap : Heap := ⟨[], [5], [7], []⟩

/-- Payload for the C7 witness: all three optional pointer fields present,
pointing at the cells of `cvHeap`. -/
def cvED : ExecutableData :=
  ⟨0, 0, 0, 0, none, 0, 0, 0, 0, 0, none, some 0, 0, none, none,
    some 0, some 0, none⟩

/-- Witness for C7: converting `cvED` over `cvHeap` re-allocates all three
optional pointer fields with the source values. -/
theorem convert_optional_pointer_fields_witness :
    (∀ b, cvED.ExcessBlobGas = some b → b < cvHeap.u64s.length) ∧
    (((ConvertExecutableDataToRethPayloadV3 cvHeap cvED).2.BaseFeePerGas = none ↔
      cvED.BaseFeePerGas = none) ∧
    ((ConvertExecutableDataToRethPayloadV3 cvHeap cvED).2.BlobGasUsed = none ↔
      cvED.BlobGasUsed = none) ∧
    ((ConvertExecutableDataToRethPayloadV3 cvHeap cvED).2.ExcessBlobGas = none ↔
      cvED.ExcessBlobGas = none) ∧
    (∀ a, cvED.BaseFeePerGas = some a → ∃ a2,
      (ConvertExecutableDataToRethPayloadV3 cvHeap cvED).2.BaseFeePerGas = some a2 ∧
      cvHeap.bigs.length ≤ a2 ∧
      readBig (ConvertExecutableDataToRethPayloadV3 cvHeap cvED).1 a2 =
        readBig cvHeap a) ∧
    (∀ a, cvED.BlobGasUsed = some a → ∃ a2,
      (ConvertExecutableDataToRethPayloadV3 cvHeap cvED).2.BlobGasUsed = some a2 ∧
      cvHeap.u64s.length ≤ a2 ∧
      readU64 (ConvertExecutableDataToRethPayloadV3 cvHeap cvED).1 a2 =
        readU64 cvHeap a) ∧
    (∀ a, cvED.ExcessBlobGas = some a → ∃ a2,
      (ConvertExecutableDataToRethPayloadV3 cvHeap cvED).2.ExcessBlobGas = some a2 ∧
      cvHeap.u64s.length ≤ a2 ∧
      readU64 (ConvertExecutableDataToRethPayloadV3 cvHeap cvED).1 a2 =
        readU64 cvHeap a)) :=
  ⟨fun b hb => by
      have hb0 : b = 0 := by simpa [cvED] using hb.symm
      subst hb0
      decide,
    convert_optional_pointer_fields cvHeap cvED (fun b hb => by
      have hb0 : b = 0 := by simpa [cvED] using hb.symm
      subst hb0
      decide)⟩

/-- `convertBaseFee` leaves the byte store untouched. -/
theorem convertBaseFee_bytes (h : Heap) (s : Option Nat) :
    (convertBaseFee h s).1.bytes = h.bytes := by
  cases s <;> rfl

/-- `convertBlobGasField` leaves the byte store untouched. -/
theorem convertBlobGasField_bytes (h : Heap) (s : Option Nat) :
    (convertBlobGasField h s).1.bytes = h.bytes := by
  cases s <;> rfl

/-- Heap for the C2 counterexample: one byte array `[1]` at address 0. -/
def aliasHeap : Heap := ⟨[[1]], [], [], []⟩

/-- Payload for the C2 counterexample: its `LogsBloom` points at address 0
of `aliasHeap`. -/
def aliasED : ExecutableData :=
  ⟨0, 0, 0, 0, some 0, 0, 0, 0, 0, 0, none, none, 0, none, none,
    none, none, none⟩

/-- Counterexample to C2 as stated: the converted payload's `LogsBloom`
field is the very same backing address as the source's, and writing through
the source's `LogsBloom` changes what the already-produced wire payload
dereferences to. -/
theorem convert_logsBloom_aliases :
    (ConvertExecutableDataToRethPayloadV3 aliasHeap aliasED).2.LogsBloom =
      aliasED.LogsBloom ∧
    readBytes
        (writeBytes (ConvertExecutableDataToRethPayloadV3 aliasHeap aliasED).1
          (aliasED.LogsBloom.getD 0) [2])
        ((ConvertExecutableDataToRethPayloadV3
          aliasHeap aliasED).2.LogsBloom.getD 0) ≠
      readBytes (ConvertExecutableDataToRethPayloadV3 aliasHeap aliasED).1
        ((ConvertExecutableDataToRethPayloadV3
          aliasHeap aliasED).2.LogsBloom.getD 0) := by
  decide

/-- C2 (amended): the transaction elements of the wire payload never share
backing storage with the source — each non-nil transaction is freshly
duplicated, so writing through the source address leaves the wire payload's
copy unchanged and vice versa. (`LogsBloom` and `ExtraData` are excluded:
they are assigned directly and do alias, as `convert_logsBloom_aliases`
shows; withdrawals share record pointers by design, see
`copyWithdrawals_by_reference`.) -/
theorem convert_transactions_independent (h : Heap) (ed : ExecutableData)
    (t : List (Option Nat)) (i a : Nat)
    (ht : ed.Transactions = some t) (hi : t[i]? = some (some a))
    (ha : a < h.bytes.length) :
    ∃ l : List (Option Nat), ∃ a2 : Nat,
      (ConvertExecutableDataToRethPayloadV3 h ed).2.Transactions = some l ∧
      l.length = t.length ∧
      l[i]? = some (some a2) ∧ h.bytes.length ≤ a2 ∧
      readBytes (ConvertExecutableDataToRethPayloadV3 h ed).1 a2 =
        readBytes h a ∧
      (∀ v, readBytes
          (writeBytes (ConvertExecutableDataToRethPayloadV3 h ed).1 a v) a2 =
        readBytes (ConvertExecutableDataToRethPayloadV3 h ed).1 a2) ∧
      (∀ v, readBytes
          (writeBytes (ConvertExecutableDataToRethPayloadV3 h ed).1 a2 v) a =
        readBytes (ConvertExecutableDataToRethPayloadV3 h ed).1 a) := by
  have hbytes : (convertBlobGasField (convertBlobGasField
      (convertBaseFee h ed.BaseFeePerGas).1 ed.BlobGasUsed).1
      ed.ExcessBlobGas).1.bytes = h.bytes := by
    rw [convertBlobGasField_bytes, convertBlobGasField_bytes,
      convertBaseFee_bytes]
  have ha' : a < (convertBlobGasField (convertBlobGasField
      (convertBaseFee h ed.BaseFeePerGas).1 ed.BlobGasUsed).1
      ed.ExcessBlobGas).1.bytes.length := by
    rw [hbytes]; exact ha
  obtain ⟨a2, h1, h2, h3, h4⟩ := copyTxList_elem _ t i a hi ha'
  rw [hbytes] at h2
  have hne : a ≠ a2 := by omega
  have hread : readBytes (convertBlobGasField (convertBlobGasField
      (convertBaseFee h ed.BaseFeePerGas).1 ed.BlobGasUsed).1
      ed.ExcessBlobGas).1 a = readBytes h a := by
    simp [readBytes, hbytes]
  refine ⟨_, a2, ?_, ?_, h1, h2, ?_, ?_, ?_⟩
  · simp only [ConvertExecutableDataToRethPayloadV3, ht, copyTransactions]
  · exact copyTxList_length _ t
  · show readBytes (ConvertExecutableDataToRethPayloadV3 h ed).1 a2 =
      readBytes h a
    simp only [ConvertExecutableDataToRethPayloadV3, ht, copyTransactions]
    rw [h4, hread]
  · intro v
    exact readBytes_writeBytes_ne _ v hne
  · intro v
    exact readBytes_writeBytes_ne _ v (Ne.symm hne)

/-- Heap for the amended-C2 witness: two byte arrays `[0xAA]`, `[0xBB]`. -/
def c2Heap : Heap := ⟨[[170], [187]], [], [], []⟩

/-- Payload for the amended-C2 witness: two non-nil transactions pointing
at the arrays of `c2Heap`. -/
def c2ED : ExecutableData :=
  ⟨0, 0, 0, 0, none, 0, 0, 0, 0, 0, none, none, 0,
    some [some 0, some 1], none, none, none, none⟩

/-- Witness for the amended C2 at Scenario C of the spec. -/
theorem convert_transactions_independent_witness :
    c2ED.Transactions = some [some 0, some 1] ∧
    ([some 0, some 1] : List (Option Nat))[0]? = some (some 0) ∧
    0 < c2Heap.bytes.length ∧
    (∃ l : List (Option Nat), ∃ a2 : Nat,
      (ConvertExecutableDataToRethPayloadV3 c2Heap c2ED).2.Transactions =
        some l ∧
      l.length = ([some 0, some 1] : List (Option Nat)).length ∧
      l[0]? = some (some a2) ∧ c2Heap.bytes.length ≤ a2 ∧
      readBytes (ConvertExecutableDataToRethPayloadV3 c2Heap c2ED).1 a2 =
        readBytes c2Heap 0 ∧
      (∀ v, readBytes
          (writeBytes (ConvertExecutableDataToRethPayloadV3 c2Heap c2ED).1
            0 v) a2 =
        readBytes (ConvertExecutableDataToRethPayloadV3 c2Heap c2ED).1 a2) ∧
      (∀ v, readBytes
          (writeBytes (ConvertExecutableDataToRethPayloadV3 c2Heap c2ED).1
            a2 v) 0 =
        readBytes (ConvertExecutableDataToRethPayloadV3 c2Heap c2ED).1 0)) :=
  ⟨by decide, by decide, by decide,
    convert_transactions_independent c2Heap c2ED [some 0, some 1] 0 0
      (by decide) (by decide) (by decide)⟩
